import Mathlib

/-!
Shallow embedding of the `threaded` wardrobe/outfit client.

The definitions below are translated from the TypeScript source of the
repository: the outfit-builder state machine (`OutfitsTab`, the
feature-complete slot-builder variant with auto-trigger, which the design
notes declare canonical among the duplicated screen variants), the stats
derivations (`StatsTab`), the wardrobe catalog shuffle policy
(`WardrobeTab`), and the star-rating gate (`StarRating`).  Asynchronous
backend calls are modelled by passing each call's result (`Except`) into
the handler and recording the issued requests and state-changing effects
as an ordered event trace.
-/

/-- One of the three garment roles; the TS union `'shirt' | 'pants' | 'shoes'`. -/
inductive Slot where
  | shirt
  | pants
  | shoes
deriving DecidableEq

/-- The TS union `ItemCategory = 'all' | 'shirt' | 'pants' | 'shoes'`. -/
inductive ItemCategory where
  | all
  | shirt
  | pants
  | shoes
deriving DecidableEq

/-- `WardrobeItem` from `types.ts`. -/
structure WardrobeItem where
  id : Nat
  clothing_id : String
  item_type : Slot
  file_path : String := ""
  uploaded_at : String := ""
  dominant_color : Option String := none
  secondary_color : Option String := none
  avg_brightness : Option ℚ := none
  avg_saturation : Option ℚ := none
  avg_hue : Option ℚ := none
  color_variance : Option ℚ := none
  edge_density : Option ℚ := none
  texture_contrast : Option ℚ := none
deriving DecidableEq

/-- `Outfit` from `types.ts`; `score_source` is kept as the runtime string
(the source casts a template string into the literal union). -/
structure Outfit where
  shirt : String
  pants : String
  shoes : String
  score : ℚ
  score_source : String
  fixed_item : Option String := none
deriving DecidableEq

/-- `Rating` from `types.ts`. -/
structure Rating where
  id : Nat
  shirt_id : String
  pants_id : String
  shoes_id : String
  rating : Nat
  rated_at : String := ""
deriving DecidableEq

/-- The per-category counters nested in `Stats.wardrobe_items`
(each field optional in the TS type). -/
structure WardrobeCounts where
  shirt : Option Nat := none
  pants : Option Nat := none
  shoes : Option Nat := none
deriving DecidableEq

/-- `Stats` from `types.ts`. -/
structure Stats where
  total_items : Nat
  wardrobe_items : WardrobeCounts
  total_ratings : Nat
  avg_rating : ℚ := 0
  active_model : Option String := none
  cached_features : Option Nat := none
  cached_predictions : Option Nat := none
deriving DecidableEq

/-- `OutfitRatingResponse` from `types.ts`. -/
structure OutfitRatingResponse where
  success : Bool
  message : String
  rating_count : Nat
  should_retrain : Bool
deriving DecidableEq

/-- The partial build request `{shirt_id?, pants_id?, shoes_id?}` sent to the
outfit-completion endpoint by `generateOutfitFromBuilder`. -/
structure BuildOutfitRequest where
  shirt_id : Option String
  pants_id : Option String
  shoes_id : Option String
deriving DecidableEq

/-- `SelectedItems`: the three independently nullable builder slots. -/
structure SelectedItems where
  shirt : Option String
  pants : Option String
  shoes : Option String
deriving DecidableEq

/-- `LoadingState` from `types.ts` (the app-level blocking overlay). -/
structure LoadingState where
  isLoading : Bool
  message : String
  submessage : Option String := none
deriving DecidableEq

/-- JS truthiness of a nullable string slot: `null`/`undefined` and the empty
string are falsy, any other string truthy. -/
def truthy : Option String → Bool
  | none => false
  | some s => !s.isEmpty

/-- The TS idiom `value || undefined` applied to a nullable slot. -/
def orUndefined (o : Option String) : Option String :=
  if truthy o then o else none

/-- Write one slot of `SelectedItems`, leaving the other two untouched
(the spread `{ ...selectedItems, [slot]: id }`). -/
def setSlot (si : SelectedItems) (slot : Slot) (id : String) : SelectedItems :=
  match slot with
  | .shirt => { si with shirt := some id }
  | .pants => { si with pants := some id }
  | .shoes => { si with shoes := some id }

/-- Null one slot of `SelectedItems` (the spread `{ ...prev, [slot]: null }`). -/
def clearSlot (si : SelectedItems) (slot : Slot) : SelectedItems :=
  match slot with
  | .shirt => { si with shirt := none }
  | .pants => { si with pants := none }
  | .shoes => { si with shoes := none }

/-- The guard `newSelectedItems.shirt && newSelectedItems.pants &&
newSelectedItems.shoes` (JS truthiness conjunction). -/
def allFilled (si : SelectedItems) : Bool :=
  truthy si.shirt && truthy si.pants && truthy si.shoes

/-- The request built by `generateOutfitFromBuilder`:
`{ shirt_id: items.shirt || undefined, ... }`. -/
def mkBuildRequest (items : SelectedItems) : BuildOutfitRequest :=
  { shirt_id := orUndefined items.shirt
    pants_id := orUndefined items.pants
    shoes_id := orUndefined items.shoes }

/-- One in-place swap step `[a[i], a[j]] = [a[j], a[i]]`, as a pure list
operation; out-of-bounds indices leave the list unchanged (they never occur
in the shuffle loop). -/
def listSwap (l : List α) (i j : Nat) : List α :=
  if h : i < l.length ∧ j < l.length then
    (l.set i (l.get ⟨j, h.2⟩)).set j (l.get ⟨i, h.1⟩)
  else l

/-- The Fisher–Yates loop of `shuffleArray`: `for (i = n-1; i > 0; i--)`
swap position `i` with `j = floor(random() * (i+1))`.  The random draws are
supplied by `rnd`; `rnd i % (i+1)` models the uniform draw of `j ∈ [0, i]`. -/
def fyAux (rnd : Nat → Nat) : Nat → List α → List α
  | 0, l => l
  | i + 1, l => fyAux rnd i (listSwap l (i + 1) (rnd (i + 1) % (i + 2)))

/-- `shuffleArray` from `WardrobeTab.tsx` / `OutfitsTab`: copy the input and
run the Fisher–Yates pass from index `length - 1` down to `1`. -/
def shuffleArray (rnd : Nat → Nat) (l : List α) : List α :=
  fyAux rnd (l.length - 1) l

/-- Moving the element at index `m` to the front while writing `a` into its
place is a permutation: `t[m] :: t.set m a ~ a :: t`. -/
theorem get_cons_set_perm (t : List α) (m : Nat) (a : α) (h : m < t.length) :
    List.Perm (t.get ⟨m, h⟩ :: t.set m a) (a :: t) := by
  induction t generalizing m with
  | nil => simp at h
  | cons b t ih =>
    cases m with
    | zero => simpa using List.Perm.swap a b t
    | succ k =>
      have hk : k < t.length := by simpa using h
      have h1 : List.Perm (t.get ⟨k, hk⟩ :: b :: t.set k a)
          (b :: t.get ⟨k, hk⟩ :: t.set k a) := List.Perm.swap b _ _
      have h2 : List.Perm (b :: t.get ⟨k, hk⟩ :: t.set k a) (b :: a :: t) :=
        List.Perm.cons b (ih k hk)
      have h3 : List.Perm (b :: a :: t) (a :: b :: t) := List.Perm.swap a b t
      simpa using h1.trans (h2.trans h3)

/-- The double `set` implementing one swap is a permutation. -/
theorem set_set_swap_perm (l : List α) (i j : Nat) (hi : i < l.length)
    (hj : j < l.length) :
    List.Perm ((l.set i (l.get ⟨j, hj⟩)).set j (l.get ⟨i, hi⟩)) l := by
  induction l generalizing i j with
  | nil => simp at hi
  | cons a t ih =>
    cases i with
    | zero =>
      cases j with
      | zero => simp
      | succ k =>
        have hk : k < t.length := by simpa using hj
        simpa using get_cons_set_perm t k a hk
    | succ m =>
      have hm : m < t.length := by simpa using hi
      cases j with
      | zero => simpa using get_cons_set_perm t m a hm
      | succ k =>
        have hk : k < t.length := by simpa using hj
        simpa using List.Perm.cons a (ih m k hm hk)

/-- Swapping two positions of a list is a permutation. -/
theorem listSwap_perm (l : List α) (i j : Nat) :
    List.Perm (listSwap l i j) l := by
  unfold listSwap
  split
  · next h => exact set_set_swap_perm l i j h.1 h.2
  · exact List.Perm.refl l

/-- Every run of the Fisher–Yates loop permutes its input. -/
theorem fyAux_perm (rnd : Nat → Nat) (n : Nat) (l : List α) :
    List.Perm (fyAux rnd n l) l := by
  induction n generalizing l with
  | zero => exact List.Perm.refl l
  | succ i ih =>
    exact (ih (listSwap l (i + 1) (rnd (i + 1) % (i + 2)))).trans
      (listSwap_perm l (i + 1) (rnd (i + 1) % (i + 2)))

/-- `shuffleArray` permutes its input for every sequence of draws. -/
theorem shuffleArray_perm (rnd : Nat → Nat) (l : List α) :
    List.Perm (shuffleArray rnd l) l :=
  fyAux_perm rnd (l.length - 1) l

/-- The requests and state-changing effects a handler issues, in program
order.  Asynchronous backend calls appear as a request event followed by
its resolution event; the sequential trace reflects the single `async`
function body awaiting each call in turn. -/
inductive ApiEvent where
  | buildReq (req : BuildOutfitRequest)
  | buildOk (o : Outfit)
  | buildErr
  | randomReq
  | randomOk (o : Outfit)
  | randomErr
  | rateReq (shirt_id pants_id shoes_id : String) (rating : Nat)
  | rateOk (resp : OutfitRatingResponse)
  | rateErr
  | statsRefresh
  | ratingsRefresh
  | alertMsg (title msg : String)
  | scheduleReset
  | setLoadingEvent (ls : LoadingState)
  | retrainReq
  | retrainOk
  | retrainErr
deriving DecidableEq

/-- The component state of the outfits screen (the `useState` hooks of
`OutfitsTab`, plus the app-level `LoadingState` the tab writes through
`setLoadingState`). -/
structure TabState where
  currentOutfit : Option Outfit
  loading : Bool
  lastRating : Option Nat
  recentRatings : List Rating
  pickerModalVisible : Bool
  pickerItems : List WardrobeItem
  pickerCategory : ItemCategory
  currentPickerSlot : Option Slot
  selectedItems : SelectedItems
  loadingState : LoadingState
deriving DecidableEq

/-- The initial hook values of `OutfitsTab`. -/
def initialState : TabState :=
  { currentOutfit := none
    loading := false
    lastRating := none
    recentRatings := []
    pickerModalVisible := false
    pickerItems := []
    pickerCategory := .all
    currentPickerSlot := none
    selectedItems := ⟨none, none, none⟩
    loadingState := ⟨false, "", none⟩ }

/-- `loadRecentRatings`: keep the first three entries of the server's
rating history (`data.slice(0, 3)`). -/
def loadRecentRatings (s : TabState) (data : List Rating) : TabState :=
  { s with recentRatings := data.take 3 }

/-- `generateOutfitFromBuilder(items)`: set loading, clear the last rating,
send the partial build request, and on success replace both the displayed
outfit and all three slots with the server's answer; on failure alert and
leave outfit and slots as they were. -/
def generateOutfitFromBuilder (s : TabState) (items : SelectedItems)
    (result : Except Unit Outfit) : TabState × List ApiEvent :=
  let s1 := { s with loading := true, lastRating := none }
  let req := mkBuildRequest items
  match result with
  | .ok data =>
      ({ s1 with
          currentOutfit := some data
          selectedItems := ⟨some data.shirt, some data.pants, some data.shoes⟩
          loading := false },
        [.buildReq req, .buildOk data])
  | .error _ =>
      ({ s1 with loading := false },
        [.buildReq req, .buildErr, .alertMsg "Error" "Failed to generate outfit"])

/-- `generateRandomOutfit` (random resolver flow): same shape as the builder
flow but with no fixed items. -/
def generateRandomOutfit (s : TabState) (result : Except Unit Outfit) :
    TabState × List ApiEvent :=
  let s1 := { s with loading := true, lastRating := none }
  match result with
  | .ok data =>
      ({ s1 with
          currentOutfit := some data
          selectedItems := ⟨some data.shirt, some data.pants, some data.shoes⟩
          loading := false },
        [.randomReq, .randomOk data])
  | .error _ =>
      ({ s1 with loading := false },
        [.randomReq, .randomErr, .alertMsg "Error" "No outfit could be generated"])

/-- The press handler of the `fill empty slots` button
(`disabled={loading}`; runs the builder on the current slots). -/
def fillEmptySlotsPress (s : TabState) (result : Except Unit Outfit) :
    TabState × List ApiEvent :=
  if s.loading then (s, []) else generateOutfitFromBuilder s s.selectedItems result

/-- `selectItemForSlot` of the canonical slot-builder variant: place the
picked item into the slot the picker was opened for; if that makes all
three slots truthy, auto-run the resolver on the new slot contents,
otherwise clear any displayed outfit and rating. -/
def selectItemForSlot (s : TabState) (item : WardrobeItem)
    (result : Except Unit Outfit) : TabState × List ApiEvent :=
  match s.currentPickerSlot with
  | none => (s, [])
  | some slot =>
      let newSelected := setSlot s.selectedItems slot item.clothing_id
      let s2 := { s with
        pickerModalVisible := false
        selectedItems := newSelected
        currentPickerSlot := none }
      if allFilled newSelected then
        generateOutfitFromBuilder s2 newSelected result
      else
        ({ s2 with currentOutfit := none, lastRating := none }, [])

/-- `selectItemForSlot` of the simplified (discarded) screen variant: no
auto-trigger; the displayed outfit is cleared on every selection. -/
def selectItemForSlotSimplified (s : TabState) (item : WardrobeItem) :
    TabState :=
  match s.currentPickerSlot with
  | none => s
  | some slot =>
      { s with
        pickerModalVisible := false
        selectedItems := setSlot s.selectedItems slot item.clothing_id
        currentPickerSlot := none
        currentOutfit := none
        lastRating := none }

/-- `clearItemSlot`: null one slot and drop the displayed outfit and rating. -/
def clearItemSlot (s : TabState) (slot : Slot) : TabState :=
  { s with
    selectedItems := clearSlot s.selectedItems slot
    currentOutfit := none
    lastRating := none }

/-- The blocking overlay written before the retrain call. -/
def blockingLoading : LoadingState :=
  ⟨true, "Training new model...", some "Please wait"⟩

/-- The cleared overlay written in the `finally` block. -/
def clearedLoading : LoadingState := ⟨false, "", none⟩

/-- The `setTimeout` callback scheduled after a successful rating: reset the
three slots and clear the outfit and rating state. -/
def ratingResetCallback (s : TabState) : TabState :=
  { s with
    selectedItems := ⟨none, none, none⟩
    currentOutfit := none
    lastRating := none }

/-- `handleRateOutfit(rating)`: no-op without a displayed outfit; otherwise
await the rate call, and on success record the star value, schedule the
delayed reset, refresh stats and recent ratings, and - only if the response
says `should_retrain` - alert, enter the blocking overlay, await the retrain
call, refresh stats again on retrain success, and clear the overlay in the
`finally` block whatever the retrain outcome. -/
def handleRateOutfit (s : TabState) (rating : Nat)
    (rateResult : Except Unit OutfitRatingResponse)
    (retrainResult : Except Unit Unit) : TabState × List ApiEvent :=
  match s.currentOutfit with
  | none => (s, [])
  | some outfit =>
      let reqEv := ApiEvent.rateReq outfit.shirt outfit.pants outfit.shoes rating
      match rateResult with
      | .error _ =>
          (s, [reqEv, .rateErr, .alertMsg "Error" "Failed to save rating"])
      | .ok result =>
          let s1 := { s with lastRating := some rating }
          let lead : List ApiEvent :=
            [reqEv, .rateOk result, .scheduleReset, .statsRefresh, .ratingsRefresh]
          if result.should_retrain then
            let alertEv := ApiEvent.alertMsg "Rating saved!"
              ("Training new model with " ++ toString result.rating_count ++ " ratings...")
            let s2 := { s1 with loadingState := clearedLoading }
            match retrainResult with
            | .ok _ =>
                (s2, lead ++ [alertEv, .setLoadingEvent blockingLoading,
                  .retrainReq, .retrainOk, .statsRefresh,
                  .setLoadingEvent clearedLoading])
            | .error _ =>
                (s2, lead ++ [alertEv, .setLoadingEvent blockingLoading,
                  .retrainReq, .retrainErr, .setLoadingEvent clearedLoading])
          else
            (s1, lead)

/-- The gate on the star row: `StarRating` is rendered with
`disabled={lastRating !== null}` and a disabled `TouchableOpacity` swallows
the press, so a press reaches `handleRateOutfit` only while no rating is
recorded. -/
def ratePress (s : TabState) (star : Nat)
    (rateResult : Except Unit OutfitRatingResponse)
    (retrainResult : Except Unit Unit) : TabState × List ApiEvent :=
  if s.lastRating.isSome then (s, [])
  else handleRateOutfit s star rateResult retrainResult

/-- `handleRecentOutfitPress(rating)`: rebuild a synthetic outfit from a
cached rating, display it, mirror its garments into the slots, and record
its star value as the last rating. -/
def handleRecentOutfitPress (s : TabState) (r : Rating) : TabState :=
  { s with
    currentOutfit := some
      { shirt := r.shirt_id
        pants := r.pants_id
        shoes := r.shoes_id
        score := (r.rating : ℚ) / 5
        score_source := "user_rating_" ++ toString r.rating }
    selectedItems := ⟨some r.shirt_id, some r.pants_id, some r.shoes_id⟩
    lastRating := some r.rating }

/-- `loadItems` of `WardrobeTab`: an unfiltered fetch is shuffled before
display, a single-category fetch is displayed in server order. -/
def loadItems (category : ItemCategory) (rnd : Nat → Nat)
    (serverData : List WardrobeItem) : List WardrobeItem :=
  if category = .all then shuffleArray rnd serverData else serverData

/-- `stats?.wardrobe_items?.shirt || 0` of `StatsTab`. -/
def shirtCount (stats : Option Stats) : Nat :=
  (stats.bind (fun st => st.wardrobe_items.shirt)).getD 0

/-- `stats?.wardrobe_items?.pants || 0` of `StatsTab`. -/
def pantsCount (stats : Option Stats) : Nat :=
  (stats.bind (fun st => st.wardrobe_items.pants)).getD 0

/-- `stats?.wardrobe_items?.shoes || 0` of `StatsTab`. -/
def shoesCount (stats : Option Stats) : Nat :=
  (stats.bind (fun st => st.wardrobe_items.shoes)).getD 0

/-- `totalCombinations = shirtCount * pantsCount * shoesCount`. -/
def totalCombinations (stats : Option Stats) : Nat :=
  shirtCount stats * pantsCount stats * shoesCount stats

/-- The `Ratings until next update` cell: `stats ? 5 - (stats.total_ratings % 5) : 5`. -/
def ratingsUntilNextUpdate (stats : Option Stats) : Nat :=
  match stats with
  | some st => 5 - st.total_ratings % 5
  | none => 5

/-- Recognizer for build requests in a trace. -/
def isBuildReq : ApiEvent → Bool
  | .buildReq _ => true
  | _ => false

/-- Recognizer for rate requests in a trace. -/
def isRateReq : ApiEvent → Bool
  | .rateReq _ _ _ _ => true
  | _ => false

/-- Recognizer for the resolution of the rate call. -/
def isRateOk : ApiEvent → Bool
  | .rateOk _ => true
  | _ => false

/-- Recognizer for retrain requests in a trace. -/
def isRetrainReq : ApiEvent → Bool
  | .retrainReq => true
  | _ => false

/-- Recognizer for stats refreshes in a trace. -/
def isStatsRefresh : ApiEvent → Bool
  | .statsRefresh => true
  | _ => false

/-- A catalog item with only the identifying fields populated. -/
def mkSampleItem (n : Nat) : WardrobeItem :=
  { id := n, clothing_id := toString n, item_type := .shirt }

/-- A ten-item unfiltered catalog response. -/
def sampleTen : List WardrobeItem := (List.range 10).map mkSampleItem

/-- A draw sequence that always picks index `0`. -/
def rollZero : Nat → Nat := fun _ => 0

/-- A draw sequence that always picks the current index (identity shuffle). -/
def rollId : Nat → Nat := fun k => k

/-- A stats record with 3 shirts, 2 pants and 4 shoes. -/
def statsExample324 : Stats :=
  { total_items := 9, wardrobe_items := ⟨some 3, some 2, some 4⟩, total_ratings := 0 }

/-- A stats record with 12 recorded ratings. -/
def statsExample12 : Stats :=
  { total_items := 0, wardrobe_items := ⟨none, none, none⟩, total_ratings := 12 }

/-- A backend-generated outfit used as a pre-failure display. -/
def c3Outfit : Outfit :=
  { shirt := "s1", pants := "p1", shoes := "h1", score := 4 / 5, score_source := "new_ml" }

/-- A state that already displays `c3Outfit` with its garments in the slots
(reached e.g. by a successful generation, or by reselecting a recent
rating and then pressing `fill empty slots`). -/
def c3State : TabState :=
  { initialState with
    currentOutfit := some c3Outfit
    selectedItems := ⟨some "s1", some "p1", some "h1"⟩ }

/-- C2: for every successful resolver call - partial build (which also
covers the single-anchor flow, an `items` record with one slot filled) and
random alike - the slot state afterwards is exactly the three identifiers
of the returned Outfit, whatever the slots held before, and the returned
Outfit is displayed. -/
theorem resolver_success_replaces_slots (s : TabState) (items : SelectedItems)
    (data : Outfit) :
    (generateOutfitFromBuilder s items (Except.ok data)).1.selectedItems
        = ⟨some data.shirt, some data.pants, some data.shoes⟩
    ∧ (generateOutfitFromBuilder s items (Except.ok data)).1.currentOutfit = some data
    ∧ (generateRandomOutfit s (Except.ok data)).1.selectedItems
        = ⟨some data.shirt, some data.pants, some data.shoes⟩
    ∧ (generateRandomOutfit s (Except.ok data)).1.currentOutfit = some data :=
  ⟨rfl, rfl, rfl, rfl⟩

/-- C3 counterexample: a failed resolver call does not clear the display.
Starting from a state already showing `c3Outfit`, the failed builder call
leaves that previously generated Outfit displayed, so the display area is
not free of stale results. -/
theorem resolver_failure_keeps_displayed_outfit_cex :
    c3State.currentOutfit = some c3Outfit
    ∧ (generateOutfitFromBuilder c3State c3State.selectedItems
        (Except.error ())).1.currentOutfit = some c3Outfit
    ∧ (generateOutfitFromBuilder c3State c3State.selectedItems
        (Except.error ())).1.currentOutfit ≠ none := by
  refine ⟨rfl, rfl, by decide⟩

/-- C3 amended: on a failed resolver call, SelectedItems is unchanged and
the displayed Outfit is also unchanged rather than cleared (only the
recorded star rating is reset); a previously displayed Outfit therefore
remains on screen after the failure. -/
theorem resolver_failure_leaves_state_unchanged (s : TabState)
    (items : SelectedItems) :
    (generateOutfitFromBuilder s items (Except.error ())).1.selectedItems
        = s.selectedItems
    ∧ (generateOutfitFromBuilder s items (Except.error ())).1.currentOutfit
        = s.currentOutfit
    ∧ (generateOutfitFromBuilder s items (Except.error ())).1.lastRating = none
    ∧ (generateRandomOutfit s (Except.error ())).1.selectedItems = s.selectedItems
    ∧ (generateRandomOutfit s (Except.error ())).1.currentOutfit = s.currentOutfit :=
  ⟨rfl, rfl, rfl, rfl, rfl⟩

/-- C7: the stats view derives `total_combinations` as the product of the
three per-category counts and `ratings_until_next_update` as
`5 - total_ratings % 5`, as pure functions of the fetched record; in
particular 3 shirts, 2 pants, 4 shoes give 24, and 12 total ratings give 3. -/
theorem stats_derivations :
    (∀ st : Stats,
      totalCombinations (some st)
          = st.wardrobe_items.shirt.getD 0 * st.wardrobe_items.pants.getD 0
              * st.wardrobe_items.shoes.getD 0
      ∧ ratingsUntilNextUpdate (some st) = 5 - st.total_ratings % 5)
    ∧ totalCombinations (some statsExample324) = 24
    ∧ ratingsUntilNextUpdate (some statsExample12) = 3 :=
  ⟨fun _ => ⟨rfl, rfl⟩, by decide, by decide⟩

/-- C8: an unfiltered catalog fetch displays a Fisher–Yates shuffle of the
server result driven by that fetch's own draws, while a single-category
fetch displays the server order unchanged; two unfiltered fetches of the
same ten items can disagree, two filtered fetches cannot. -/
theorem catalog_shuffle_policy :
    (∀ (data : List WardrobeItem) (rnd : Nat → Nat),
      loadItems .all rnd data = shuffleArray rnd data
      ∧ loadItems .shirt rnd data = data
      ∧ loadItems .pants rnd data = data
      ∧ loadItems .shoes rnd data = data)
    ∧ loadItems .all rollZero sampleTen ≠ loadItems .all rollId sampleTen
    ∧ loadItems .shirt rollZero sampleTen = loadItems .shirt rollId sampleTen :=
  ⟨fun _ _ => ⟨by simp [loadItems], by simp [loadItems], by simp [loadItems],
      by simp [loadItems]⟩,
    by decide, by simp [loadItems]⟩

/-- C9: reselecting a cached rating reconstructs a synthetic Outfit whose
garments are the rating's identifiers, whose score is `rating / 5`, and
whose provenance tag is `user_rating_N`; because the star value is recorded
as the last rating, a star press on the reconstructed Outfit is swallowed
by the disabled star row and issues no rate request. -/
theorem recent_rating_reconstruction (s : TabState) (r : Rating) :
    (handleRecentOutfitPress s r).currentOutfit = some
      { shirt := r.shirt_id, pants := r.pants_id, shoes := r.shoes_id
        score := (r.rating : ℚ) / 5
        score_source := "user_rating_" ++ toString r.rating }
    ∧ (handleRecentOutfitPress s r).lastRating = some r.rating
    ∧ (handleRecentOutfitPress s r).selectedItems
        = ⟨some r.shirt_id, some r.pants_id, some r.shoes_id⟩
    ∧ ∀ (star : Nat) (rr : Except Unit OutfitRatingResponse)
        (tr : Except Unit Unit),
        ratePress (handleRecentOutfitPress s r) star rr tr
          = (handleRecentOutfitPress s r, []) :=
  ⟨rfl, rfl, rfl, fun _ _ _ => rfl⟩

/-- C10: for every input list and every sequence of draws, `shuffleArray`
returns a permutation of its input - same length and same multiset of
elements - and, being defined on an explicit copy, never mutates the
input. -/
theorem shuffleArray_is_permutation (α : Type) (rnd : Nat → Nat) (l : List α) :
    List.Perm (shuffleArray rnd l) l
    ∧ (shuffleArray rnd l).length = l.length
    ∧ (shuffleArray rnd l : Multiset α) = (l : Multiset α) :=
  ⟨shuffleArray_perm rnd l, (shuffleArray_perm rnd l).length_eq,
    Multiset.coe_eq_coe.mpr (shuffleArray_perm rnd l)⟩

/-- A truthy slot holds a value. -/
theorem truthy_isSome {o : Option String} (h : truthy o = true) :
    o.isSome = true := by
  cases o <;> simp_all [truthy]

/-- On a truthy slot, `value || undefined` is the value itself. -/
theorem orUndefined_of_truthy {o : Option String} (h : truthy o = true) :
    orUndefined o = o := by
  simp [orUndefined, h]

/-- What C1 asserts of one `select`: if it makes all three slots truthy the
auto-triggered resolver issues exactly one build request, carrying exactly
the new slot contents with every field present; if it leaves the slots
incomplete, no request at all is issued. -/
def c1Concl (s : TabState) (slot : Slot) (item : WardrobeItem)
    (res : Except Unit Outfit) : Prop :=
  (allFilled (setSlot s.selectedItems slot item.clothing_id) = true →
    (selectItemForSlot s item res).2.countP isBuildReq = 1
    ∧ ApiEvent.buildReq (mkBuildRequest (setSlot s.selectedItems slot item.clothing_id))
        ∈ (selectItemForSlot s item res).2
    ∧ mkBuildRequest (setSlot s.selectedItems slot item.clothing_id)
        = ⟨(setSlot s.selectedItems slot item.clothing_id).shirt,
           (setSlot s.selectedItems slot item.clothing_id).pants,
           (setSlot s.selectedItems slot item.clothing_id).shoes⟩
    ∧ (setSlot s.selectedItems slot item.clothing_id).shirt.isSome = true
    ∧ (setSlot s.selectedItems slot item.clothing_id).pants.isSome = true
    ∧ (setSlot s.selectedItems slot item.clothing_id).shoes.isSome = true)
  ∧ (allFilled (setSlot s.selectedItems slot item.clothing_id) = false →
    (selectItemForSlot s item res).2 = [])

/-- C1: in the canonical slot-builder variant, a `select` that fills the
last empty slot auto-triggers exactly one resolver call with the complete
slot contents, and a `select` that leaves the slots incomplete triggers
none. -/
theorem selectItemForSlot_autotrigger (s : TabState) (slot : Slot)
    (item : WardrobeItem) (res : Except Unit Outfit)
    (h : s.currentPickerSlot = some slot) :
    c1Concl s slot item res := by
  unfold c1Concl
  constructor
  · intro hAll
    obtain ⟨⟨hsh, hpa⟩, hsho⟩ :
        (truthy (setSlot s.selectedItems slot item.clothing_id).shirt = true
          ∧ truthy (setSlot s.selectedItems slot item.clothing_id).pants = true)
        ∧ truthy (setSlot s.selectedItems slot item.clothing_id).shoes = true := by
      simpa [allFilled, Bool.and_eq_true] using hAll
    refine ⟨?_, ?_, ?_, truthy_isSome hsh, truthy_isSome hpa, truthy_isSome hsho⟩
    · cases res <;>
        simp [selectItemForSlot, h, hAll, generateOutfitFromBuilder,
          List.countP_cons, List.countP_nil, isBuildReq]
    · cases res <;>
        simp [selectItemForSlot, h, hAll, generateOutfitFromBuilder]
    · simp [mkBuildRequest, orUndefined_of_truthy hsh,
        orUndefined_of_truthy hpa, orUndefined_of_truthy hsho]
  · intro hAll
    simp [selectItemForSlot, h, hAll]

/-- The builder state right after picking a top and a bottom, with the
shoes picker open. -/
def c1State : TabState :=
  { initialState with
    currentPickerSlot := some Slot.shoes
    selectedItems := ⟨some "s1", some "p1", none⟩ }

/-- The shoes item picked to complete the outfit. -/
def c1Item : WardrobeItem := { id := 7, clothing_id := "h1", item_type := .shoes }

/-- The outfit the backend returns for the completed build. -/
def c1Outfit : Outfit :=
  { shirt := "s1", pants := "p1", shoes := "h1", score := 1, score_source := "new_ml" }

/-- C1 witness: the auto-trigger theorem applied to a concrete last-slot
selection. -/
theorem selectItemForSlot_autotrigger_instance :
    c1State.currentPickerSlot = some Slot.shoes
    ∧ c1Concl c1State Slot.shoes c1Item (Except.ok c1Outfit) :=
  ⟨rfl, selectItemForSlot_autotrigger c1State Slot.shoes c1Item
    (Except.ok c1Outfit) rfl⟩

/-- What C4 asserts of one rating submission: on a resolved rating
response the retrain endpoint is hit exactly once when `should_retrain`
is set and never otherwise, no retrain request precedes the rating
response in the trace, and a failed rating call never triggers retrain. -/
def c4Concl (s : TabState) (rating : Nat) (resp : OutfitRatingResponse)
    (tr : Except Unit Unit) : Prop :=
  (handleRateOutfit s rating (Except.ok resp) tr).2.countP isRetrainReq
      = (if resp.should_retrain then 1 else 0)
  ∧ ((handleRateOutfit s rating (Except.ok resp) tr).2.takeWhile
      (fun e => !isRateOk e)).countP isRetrainReq = 0
  ∧ (handleRateOutfit s rating (Except.error ()) tr).2.countP isRetrainReq = 0

/-- C4: for every rating submission whose response sets `should_retrain`,
the retrain endpoint is invoked exactly once, strictly after the rating
call has resolved successfully (the sequential trace places every retrain
request after the rating resolution, and a failed or retrain-free rating
issues none). -/
theorem retrain_called_once_after_rating (s : TabState) (o : Outfit)
    (rating : Nat) (resp : OutfitRatingResponse) (tr : Except Unit Unit)
    (h : s.currentOutfit = some o) :
    c4Concl s rating resp tr := by
  unfold c4Concl
  cases hr : resp.should_retrain <;> cases tr <;>
    simp [handleRateOutfit, h, hr, List.countP_cons, List.countP_nil,
      List.takeWhile_cons, isRetrainReq, isRateOk]

/-- The outfit displayed when the C4 witness rates. -/
def c4Outfit : Outfit :=
  { shirt := "s3", pants := "p3", shoes := "h3", score := 3 / 5,
    score_source := "exploration_random" }

/-- A state displaying `c4Outfit`, ready to be rated. -/
def c4State : TabState := { initialState with currentOutfit := some c4Outfit }

/-- A rating response demanding a retrain. -/
def c4Resp : OutfitRatingResponse :=
  { success := true, message := "ok", rating_count := 10, should_retrain := true }

/-- C4 witness: the ordering theorem applied to a concrete rating flow. -/
theorem retrain_called_once_after_rating_instance :
    c4State.currentOutfit = some c4Outfit
    ∧ c4Concl c4State 3 c4Resp (Except.ok ()) :=
  ⟨rfl, retrain_called_once_after_rating c4State c4Outfit 3 c4Resp
    (Except.ok ()) rfl⟩

/-- The outfit displayed when the C5 runs rate. -/
def c5Outfit : Outfit :=
  { shirt := "s2", pants := "p2", shoes := "h2", score := 1 / 2,
    score_source := "cached_ml" }

/-- A state displaying `c5Outfit`, ready to be rated. -/
def c5State : TabState := { initialState with currentOutfit := some c5Outfit }

/-- The scenario response: twenty ratings recorded, retrain demanded. -/
def c5Resp : OutfitRatingResponse :=
  { success := true, message := "Rating saved", rating_count := 20,
    should_retrain := true }

/-- C5 counterexample: in the concrete retrain scenario the code does not
behave as claimed - after a failed retrain no Stats refresh follows at
all, and after a successful retrain the Stats refresh comes before the
blocking state is cleared, not after. -/
theorem retrain_stats_order_cex :
    c5Resp.should_retrain = true
    ∧ ApiEvent.statsRefresh ∉
        (handleRateOutfit c5State 4 (Except.ok c5Resp) (Except.error ())).2.dropWhile
          (fun e => !isRetrainReq e)
    ∧ (handleRateOutfit c5State 4 (Except.ok c5Resp) (Except.ok ())).2.dropWhile
          (fun e => !isRetrainReq e)
        = [ApiEvent.retrainReq, ApiEvent.retrainOk, ApiEvent.statsRefresh,
           ApiEvent.setLoadingEvent clearedLoading] :=
  ⟨rfl, by decide, by decide⟩

/-- What the amended C5 asserts: the blocking overlay is entered before the
retrain request; a successful retrain is followed by a Stats refresh and
then the overlay clear, in that order; a failed retrain is followed only by
the overlay clear; and the retrain endpoint is hit exactly once. -/
def c5Concl (s : TabState) (rating : Nat) (resp : OutfitRatingResponse) : Prop :=
  ApiEvent.setLoadingEvent blockingLoading ∈
      (handleRateOutfit s rating (Except.ok resp) (Except.ok ())).2.takeWhile
        (fun e => !isRetrainReq e)
  ∧ (handleRateOutfit s rating (Except.ok resp) (Except.ok ())).2.dropWhile
        (fun e => !isRetrainReq e)
      = [ApiEvent.retrainReq, ApiEvent.retrainOk, ApiEvent.statsRefresh,
         ApiEvent.setLoadingEvent clearedLoading]
  ∧ (handleRateOutfit s rating (Except.ok resp) (Except.error ())).2.dropWhile
        (fun e => !isRetrainReq e)
      = [ApiEvent.retrainReq, ApiEvent.retrainErr,
         ApiEvent.setLoadingEvent clearedLoading]
  ∧ (handleRateOutfit s rating (Except.ok resp) (Except.ok ())).2.countP
      isRetrainReq = 1

/-- C5 amended: when `should_retrain` is true the client enters the
exclusive blocking state and calls retrain; on retrain success it
refreshes Stats and then clears the blocking state (refetch before
clear), on retrain failure it clears the blocking state without a further
Stats refresh. -/
theorem retrain_sequencing (s : TabState) (o : Outfit) (rating : Nat)
    (resp : OutfitRatingResponse) (h : s.currentOutfit = some o)
    (hr : resp.should_retrain = true) :
    c5Concl s rating resp := by
  unfold c5Concl
  simp [handleRateOutfit, h, hr, List.takeWhile_cons, List.dropWhile_cons,
    isRetrainReq, List.countP_cons, List.countP_nil]

/-- C5 witness: the amended sequencing theorem applied to the concrete
twenty-ratings scenario. -/
theorem retrain_sequencing_instance :
    c5State.currentOutfit = some c5Outfit
    ∧ c5Resp.should_retrain = true
    ∧ c5Concl c5State 4 c5Resp :=
  ⟨rfl, rfl, retrain_sequencing c5State c5Outfit 4 c5Resp rfl rfl⟩

/-- What C6 asserts of a displayed outfit being rated: the first star press
issues exactly one rate request and records the star value, after which any
further press on the same displayed outfit is swallowed - no state change
and no second rate request - until the builder is reset or regenerated. -/
def c6Concl (s : TabState) (star : Nat) (resp : OutfitRatingResponse)
    (tr : Except Unit Unit) : Prop :=
  (ratePress s star (Except.ok resp) tr).1.lastRating = some star
  ∧ (ratePress s star (Except.ok resp) tr).2.countP isRateReq = 1
  ∧ ∀ (star2 : Nat) (rr2 : Except Unit OutfitRatingResponse)
      (tr2 : Except Unit Unit),
      ratePress (ratePress s star (Except.ok resp) tr).1 star2 rr2 tr2
        = ((ratePress s star (Except.ok resp) tr).1, [])

/-- C6: once a rating has been recorded for the displayed outfit, the rated
state is terminal for that outfit instance - a second star press before
reset or regeneration issues no second rate request. -/
theorem rated_terminal (s : TabState) (o : Outfit) (star : Nat)
    (resp : OutfitRatingResponse) (tr : Except Unit Unit)
    (h1 : s.currentOutfit = some o) (h2 : s.lastRating = none) :
    c6Concl s star resp tr := by
  unfold c6Concl
  cases hr : resp.should_retrain <;> cases tr <;>
    simp [ratePress, handleRateOutfit, h1, h2, hr, List.countP_cons,
      List.countP_nil, isRateReq]

/-- The outfit displayed when the C6 witness rates. -/
def c6Outfit : Outfit :=
  { shirt := "s4", pants := "p4", shoes := "h4", score := 1,
    score_source := "random" }

/-- A state displaying `c6Outfit`, not yet rated. -/
def c6State : TabState := { initialState with currentOutfit := some c6Outfit }

/-- A rating response without a retrain demand. -/
def c6Resp : OutfitRatingResponse :=
  { success := true, message := "ok", rating_count := 7, should_retrain := false }

/-- C6 witness: the terminal-rating theorem applied to a concrete first and
second press. -/
theorem rated_terminal_instance :
    c6State.currentOutfit = some c6Outfit
    ∧ c6State.lastRating = none
    ∧ c6Concl c6State 5 c6Resp (Except.ok ()) :=
  ⟨rfl, rfl, rated_terminal c6State c6Outfit 5 c6Resp (Except.ok ()) rfl rfl⟩
